import Mathlib

/-!
Shallow embedding of the consultation backend (src/main.py).

Documents are modelled as association lists of string keys to a `Value`
type covering the BSON values the application manipulates: ObjectId values,
datetime values, strings, integers, null, nested lists and nested
mappings.  The document store adapter (`create_document`, `get_documents`)
and the driver-level `find_one` live in a `database` module that is not
part of the sources; they are modelled from the specification of the
Document Store Adapter.  Python builtins (`str.lower`, `str.title`) are
modelled for ASCII text.
-/

/-- BSON-like values as manipulated by the application: ObjectId and
datetime values carry their textual form (the string produced by
`str(oid)` and by `isoformat()` respectively). -/
inductive Value : Type where
  | vObjectId (s : String)
  | vDatetime (s : String)
  | vStr (s : String)
  | vInt (n : Int)
  | vNull
  | vList (items : List Value)
  | vDict (fields : List (String × Value))
deriving Repr

/-- A stored or transported document: an ordered mapping from keys to values. -/
abbrev Doc := List (String × Value)

mutual
/-- Embeds the inner function of serialize_doc (src/main.py lines 28-37):
ObjectId becomes its string form, datetime becomes its isoformat string,
lists and mappings recurse, every other value passes through unchanged. -/
def convert : Value → Value
  | .vObjectId s => .vStr s
  | .vDatetime s => .vStr s
  | .vList l => .vList (convertList l)
  | .vDict l => .vDict (convertDict l)
  | v => v

/-- Recursion of `convert` through a list value. -/
def convertList : List Value → List Value
  | [] => []
  | v :: vs => convert v :: convertList vs

/-- Recursion of `convert` through a mapping value. -/
def convertDict : List (String × Value) → List (String × Value)
  | [] => []
  | (k, v) :: kvs => (k, convert v) :: convertDict kvs
end

/-- Embeds serialize_doc (src/main.py lines 27-39): applied to a document,
it converts every value recursively. -/
def serialize_doc (d : Doc) : Doc := convertDict d

mutual
/-- A value is plain when it contains no ObjectId and no datetime anywhere,
recursively through nested lists and mappings. -/
def plain : Value → Bool
  | .vObjectId _ => false
  | .vDatetime _ => false
  | .vList l => plainList l
  | .vDict l => plainDict l
  | _ => true

/-- Recursion of `plain` through a list value. -/
def plainList : List Value → Bool
  | [] => true
  | v :: vs => plain v && plainList vs

/-- Recursion of `plain` through a mapping value. -/
def plainDict : List (String × Value) → Bool
  | [] => true
  | (_, v) :: kvs => plain v && plainDict kvs
end

mutual
/-- Structural equality test on values, used when matching store filters. -/
def veq : Value → Value → Bool
  | .vObjectId a, .vObjectId b => a == b
  | .vDatetime a, .vDatetime b => a == b
  | .vStr a, .vStr b => a == b
  | .vInt a, .vInt b => a == b
  | .vNull, .vNull => true
  | .vList a, .vList b => veqList a b
  | .vDict a, .vDict b => veqDict a b
  | _, _ => false

/-- Recursion of `veq` through list values. -/
def veqList : List Value → List Value → Bool
  | [], [] => true
  | a :: as1, b :: bs1 => veq a b && veqList as1 bs1
  | _, _ => false

/-- Recursion of `veq` through mapping values. -/
def veqDict : List (String × Value) → List (String × Value) → Bool
  | [], [] => true
  | (ka, a) :: as1, (kb, b) :: bs1 => ka == kb && veq a b && veqDict as1 bs1
  | _, _ => false
end

/-- Models the Python builtin str.lower for ASCII text: every character is
lowercased independently. -/
def pyLower (s : String) : String := ⟨s.data.map Char.toLower⟩

/-- Helper for `pyTitle`: the flag records whether the previous character
was alphabetic. -/
def pyTitleAux : Bool → List Char → List Char
  | _, [] => []
  | prevCased, c :: cs =>
    if c.isAlpha then
      (if prevCased then c.toLower else c.toUpper) :: pyTitleAux true cs
    else
      c :: pyTitleAux false cs

/-- Models the Python builtin str.title for ASCII text: the first letter of
every alphabetic run is uppercased, the rest lowercased. -/
def pyTitle (s : String) : String := ⟨pyTitleAux false s.data⟩

/-- Embeds the ConsultationCreate schema (src/main.py lines 46-51). -/
structure ConsultationCreate where
  business_name : String
  industry : String
  stage : String
  goal : String
  notes : Option String
deriving DecidableEq, Repr

/-- Models the pydantic parsing of a creation payload against the
ConsultationCreate schema of src/main.py lines 46-51: an omitted stage
field takes the declared default "idea", an omitted notes field takes None. -/
def ConsultationCreate.ofPayload (business_name industry goal : String)
    (stage : Option String) (notes : Option String) : ConsultationCreate :=
  ⟨business_name, industry, stage.getD "idea", goal, notes⟩

/-- The stored form of an Optional str field: a string or null. -/
def notesVal : Option String → Value
  | some n => .vStr n
  | none => .vNull

/-- Embeds model_dump on a ConsultationCreate value: the document handed to
the store by create_consultation (src/main.py line 191). -/
def ConsultationCreate.model_dump (p : ConsultationCreate) : Doc :=
  [("business_name", .vStr p.business_name),
   ("industry", .vStr p.industry),
   ("stage", .vStr p.stage),
   ("goal", .vStr p.goal),
   ("notes", notesVal p.notes)]

/-- Embeds the stage_focus table of generate_advice (src/main.py lines 90-115). -/
def stage_focus : List (String × List String) :=
  [("idea",
    ["Problem validation", "Customer discovery", "Value proposition", "Competitive scan"]),
   ("mvp",
    ["MVP scope", "Success metrics", "Go-to-market", "Pricing hypothesis"]),
   ("growth",
    ["Acquisition channels", "Retention levers", "Unit economics", "Sales pipeline"]),
   ("scale",
    ["Org design", "Process/automation", "Internationalization", "Risk & compliance"])]

/-- Embeds the focus selection of generate_advice (src/main.py line 117):
dictionary get with the idea entry as the default. -/
def selectFocus (stage : String) : List String :=
  (stage_focus.lookup stage).getD ((stage_focus.lookup "idea").getD [])

/-- Embeds the bullets string of generate_advice (src/main.py lines 119-124). -/
def bulletsFor (focus : List String) : String :=
  String.intercalate "\n"
    (focus.map fun topic =>
      "- " ++ topic ++ ": Consider 1-2 experiments this week to validate assumptions.")

/-- Embeds the next_steps string of generate_advice (src/main.py lines 126-131). -/
def next_steps : String :=
  "1) Define a one-sentence goal for the next 7 days\n" ++
  "2) Pick one channel to test (e.g., LinkedIn, cold email, partnerships)\n" ++
  "3) Draft a simple success metric (e.g., 5 qualified leads)\n" ++
  "4) Schedule a weekly review to iterate"

/-- Embeds the return template of generate_advice (src/main.py lines 133-143),
parameterized by the already-computed industry, stage, goal and focus list. -/
def adviceText (user_text industry stage goal : String) (focus : List String) : String :=
  "Context\n- Industry: " ++ industry ++ "\n- Stage: " ++ stage ++
    "\n- Goal: " ++ goal ++ "\n\n" ++
  "Your prompt\n" ++ "- " ++ user_text ++ "\n\n" ++
  "Advisor Summary\n" ++
  "- Core thesis: Align actions to the next riskiest assumption.\n" ++
  "- Focus areas:\n" ++ bulletsFor focus ++ "\n\n" ++
  "Suggested Next Steps\n" ++ next_steps ++ "\n\n" ++
  "Metrics To Watch\n- Lead velocity\n- Conversion to qualified opportunity\n" ++
    "- CAC vs LTV\n- Activation time\n\n" ++
  "Resources\n- Lean Canvas\n- Mom Test (customer interviews)\n- Pirate Metrics (AARRR)\n"

/-- Embeds generate_advice (src/main.py lines 82-143): industry is
title-cased, stage is lowercased, the focus list is selected from the
stage_focus table with the idea list as the fallback, and the fixed
template is filled in. -/
def generate_advice (user_text : String) (meta : ConsultationCreate) : String :=
  adviceText user_text (pyTitle meta.industry) (pyLower meta.stage) meta.goal
    (selectFocus (pyLower meta.stage))

/-- Hex digit test for ObjectId strings. -/
def isHexChar (c : Char) : Bool :=
  c.isDigit || (Char.ofNat 97 ≤ c && c ≤ Char.ofNat 102) ||
    (Char.ofNat 65 ≤ c && c ≤ Char.ofNat 70)

/-- Models the bson ObjectId constructor applied to a string (external
library, out of scope of the sources): the string is accepted exactly when
it is a 24 character hexadecimal string. -/
def isValidOid (s : String) : Bool := s.length == 24 && s.data.all isHexChar

/-- Models the bson ObjectId round trip str(ObjectId(s)): parsing fails on
a malformed string (the constructor raises) and otherwise normalizes the
hexadecimal text to lowercase. -/
def parseOid (s : String) : Option String :=
  if isValidOid s then some (pyLower s) else none

/-- The two logical collections of the store (spec section 4.1), each an
ordered sequence of documents. -/
structure Store where
  consultation : List Doc
  message : List Doc
deriving Repr

/-- Modelled from the spec: the Document Store Adapter is the database
module absent from src. insert-one(collection, document) appends the
document extended with created_at and updated_at timestamps and a
generated _id, and returns the generated id in string form. The fresh id
and the timestamp text are passed in as parameters, since identifier
generation is external. -/
def create_document (coll : List Doc) (doc : Doc) (newOid : String) (now : String) :
    List Doc × String :=
  (coll ++ [doc ++ [("created_at", .vDatetime now), ("updated_at", .vDatetime now),
      ("_id", .vObjectId newOid)]], newOid)

/-- A document matches a filter when every filter key is present in the
document with a structurally equal value. -/
def matchesFilter (filt : Doc) (d : Doc) : Bool :=
  filt.all fun kv =>
    match List.lookup kv.1 d with
    | some v => veq v kv.2
    | none => false

/-- Modelled from the spec: find-many(collection, filter, limit) of the
Document Store Adapter returns the ordered sequence of matching documents,
capped at the limit. -/
def get_documents (coll : List Doc) (filt : Doc) (limit : Nat) : List Doc :=
  (coll.filter (matchesFilter filt)).take limit

/-- A document matches the driver filter by _id exactly when its _id field
is an ObjectId with the given normalized string form. -/
def matchesId (oid : String) (d : Doc) : Bool :=
  match List.lookup "_id" d with
  | some (.vObjectId s) => s == oid
  | _ => false

/-- Models the driver call find_one(collection, filter by _id): the first
document of the collection whose _id equals the given id, if any. -/
def find_one (coll : List Doc) (oid : String) : Option Doc :=
  coll.find? (matchesId oid)

/-- An HTTP error response as raised by the handlers. -/
structure HTTPException where
  status_code : Nat
  detail : String
deriving DecidableEq, Repr

/-- Models an unhandled runtime fault, reported as a 5xx per spec section 7. -/
def serverError : HTTPException := ⟨500, "Internal Server Error"⟩

/-- Removes the first occurrence of a key from a document, returning its
value and the remaining document; models dict.pop, which raises when the
key is absent. -/
def popKey (k : String) : Doc → Option (Value × Doc)
  | [] => none
  | (k2, v) :: rest =>
    if k2 = k then some (v, rest)
    else (popKey k rest).map fun p => (p.1, (k2, v) :: p.2)

/-- Embeds the pattern at src/main.py line 196 and friends: pop the _id key
and store its value under the id key, which is appended since no id key is
present beforehand. -/
def renameIdKey (d : Doc) : Option Doc :=
  (popKey "_id" d).map fun p => p.2 ++ [("id", p.1)]

/-- Embeds create_consultation (src/main.py lines 189-197): dump the
payload, insert it, re-fetch by the generated id, serialize, rename _id to
id. A failed re-fetch would crash the handler and is reported as a 5xx. -/
def create_consultation (st : Store) (newOid now : String) (p : ConsultationCreate) :
    Store × Except HTTPException Doc :=
  let doc := p.model_dump
  let r := create_document st.consultation doc newOid now
  let st1 : Store := { st with consultation := r.1 }
  match parseOid r.2 with
  | none => (st1, .error serverError)
  | some oid =>
    match find_one st1.consultation oid with
    | none => (st1, .error serverError)
    | some saved =>
      match renameIdKey (serialize_doc saved) with
      | none => (st1, .error serverError)
      | some out => (st1, .ok out)

/-- Embeds list_consultations (src/main.py lines 200-208): fetch up to 50
documents, serialize each and rename _id to id. -/
def list_consultations (st : Store) : Except HTTPException (List Doc) :=
  let items := get_documents st.consultation [] 50
  match items.mapM fun it => renameIdKey (serialize_doc it) with
  | none => .error serverError
  | some out => .ok out

/-- Embeds get_consultation (src/main.py lines 211-221): 404 when the id
does not parse, 404 when no consultation has that id, otherwise the
serialized document with _id renamed to id. -/
def get_consultation (st : Store) (consultation_id : String) : Except HTTPException Doc :=
  match parseOid consultation_id with
  | none => .error ⟨404, "Invalid consultation id"⟩
  | some oid =>
    match find_one st.consultation oid with
    | none => .error ⟨404, "Consultation not found"⟩
    | some it =>
      match renameIdKey (serialize_doc it) with
      | none => .error serverError
      | some s => .ok s

/-- Embeds list_messages (src/main.py lines 224-236): 404 when the id does
not parse; otherwise up to 200 messages filtered by the raw consultation_id
string, each serialized with _id renamed to id. No existence check is made. -/
def list_messages (st : Store) (consultation_id : String) :
    Except HTTPException (List Doc) :=
  match parseOid consultation_id with
  | none => .error ⟨404, "Invalid consultation id"⟩
  | some _ =>
    let items := get_documents st.message [("consultation_id", .vStr consultation_id)] 200
    match items.mapM fun it => renameIdKey (serialize_doc it) with
    | none => .error serverError
    | some out => .ok out

/-- Interprets a stored value as the string pydantic accepts for a str field. -/
def asStr : Value → Option String
  | .vStr s => some s
  | _ => none

/-- Interprets a stored value as the value pydantic accepts for an
Optional str field. -/
def asOptStr : Value → Option (Option String)
  | .vStr s => some (some s)
  | .vNull => some none
  | _ => none

/-- Embeds dict.get with a default on a document. -/
def getFieldD (d : Doc) (k : String) (dflt : Value) : Value :=
  (List.lookup k d).getD dflt

/-- Embeds the metadata synthesis of send_message (src/main.py lines
258-264): each field is read from the stored consultation with a default
(empty string for business_name, industry and goal, the string idea for
stage, None for notes) and validated by the ConsultationCreate schema;
a stored value of the wrong shape fails validation. -/
def meta_of (cons : Doc) : Option ConsultationCreate :=
  match asStr (getFieldD cons "business_name" (.vStr "")),
        asStr (getFieldD cons "industry" (.vStr "")),
        asStr (getFieldD cons "stage" (.vStr "idea")),
        asStr (getFieldD cons "goal" (.vStr "")),
        asOptStr (getFieldD cons "notes" .vNull) with
  | some bn, some ind, some stg, some g, some n => some ⟨bn, ind, stg, g, n⟩
  | _, _, _, _, _ => none

/-- Embeds send_message (src/main.py lines 239-277): 404 when the id does
not parse or no consultation has it; otherwise the user message is stored,
metadata is synthesized from the stored consultation, the advice reply is
generated and stored as the assistant message, and the re-fetched assistant
message is serialized, renamed and returned. The generated ids and
timestamp texts of the two inserts are parameters. -/
def send_message (st : Store) (consultation_id : String) (content : String)
    (oid1 now1 oid2 now2 : String) : Store × Except HTTPException Doc :=
  match parseOid consultation_id with
  | none => (st, .error ⟨404, "Invalid consultation id"⟩)
  | some oid =>
    match find_one st.consultation oid with
    | none => (st, .error ⟨404, "Consultation not found"⟩)
    | some cons =>
      let user_msg : Doc :=
        [("consultation_id", .vStr consultation_id),
         ("role", .vStr "user"),
         ("content", .vStr content)]
      let st1 : Store := { st with message := (create_document st.message user_msg oid1 now1).1 }
      match meta_of cons with
      | none => (st1, .error serverError)
      | some meta =>
        let reply_text := generate_advice content meta
        let assistant_msg : Doc :=
          [("consultation_id", .vStr consultation_id),
           ("role", .vStr "assistant"),
           ("content", .vStr reply_text)]
        let r2 := create_document st1.message assistant_msg oid2 now2
        let st2 : Store := { st1 with message := r2.1 }
        match parseOid r2.2 with
        | none => (st2, .error serverError)
        | some oid2n =>
          match find_one st2.message oid2n with
          | none => (st2, .error serverError)
          | some saved =>
            match renameIdKey (serialize_doc saved) with
            | none => (st2, .error serverError)
            | some s => (st2, .ok s)

/-- Embeds the MessageIn schema constraint (src/main.py lines 65-66):
content between 1 and 4000 characters. -/
def validMessageContent (content : String) : Bool :=
  1 ≤ content.length && content.length ≤ 4000

/-- Modelled from the spec: the HTTP framework validates the request body
against the MessageIn schema before the handler runs, and reports a
validation failure without invoking the handler, leaving the store
untouched. The length bounds come from src/main.py lines 65-66. -/
def post_message_endpoint (st : Store) (consultation_id content : String)
    (oid1 now1 oid2 now2 : String) : Store × Except HTTPException Doc :=
  if validMessageContent content then
    send_message st consultation_id content oid1 now1 oid2 now2
  else
    (st, .error ⟨422, "validation error"⟩)

mutual
/-- Conversion does not change a value that is already plain. -/
theorem convert_of_plain : ∀ v : Value, plain v = true → convert v = v
  | .vObjectId _ => by simp [plain]
  | .vDatetime _ => by simp [plain]
  | .vStr _ => fun _ => rfl
  | .vInt _ => fun _ => rfl
  | .vNull => fun _ => rfl
  | .vList l => fun h => by
      simp only [plain] at h
      simp only [convert, convertList_of_plainList l h]
  | .vDict l => fun h => by
      simp only [plain] at h
      simp only [convert, convertDict_of_plainDict l h]

/-- List version of `convert_of_plain`. -/
theorem convertList_of_plainList : ∀ l : List Value, plainList l = true → convertList l = l
  | [] => fun _ => rfl
  | v :: vs => fun h => by
      simp only [plainList, Bool.and_eq_true] at h
      simp only [convertList, convert_of_plain v h.1, convertList_of_plainList vs h.2]

/-- Mapping version of `convert_of_plain`. -/
theorem convertDict_of_plainDict :
    ∀ l : List (String × Value), plainDict l = true → convertDict l = l
  | [] => fun _ => rfl
  | (k, v) :: kvs => fun h => by
      simp only [plainDict, Bool.and_eq_true] at h
      simp only [convertDict, convert_of_plain v h.1, convertDict_of_plainDict kvs h.2]
end

mutual
/-- The result of conversion is always plain. -/
theorem plain_convert : ∀ v : Value, plain (convert v) = true
  | .vObjectId _ => rfl
  | .vDatetime _ => rfl
  | .vStr _ => rfl
  | .vInt _ => rfl
  | .vNull => rfl
  | .vList l => by simp only [convert, plain, plainList_convertList l]
  | .vDict l => by simp only [convert, plain, plainDict_convertDict l]

/-- List version of `plain_convert`. -/
theorem plainList_convertList : ∀ l : List Value, plainList (convertList l) = true
  | [] => rfl
  | v :: vs => by
      simp only [convertList, plainList, Bool.and_eq_true]
      exact ⟨plain_convert v, plainList_convertList vs⟩

/-- Mapping version of `plain_convert`. -/
theorem plainDict_convertDict :
    ∀ l : List (String × Value), plainDict (convertDict l) = true
  | [] => rfl
  | (k, v) :: kvs => by
      simp only [convertDict, plainDict, Bool.and_eq_true]
      exact ⟨plain_convert v, plainDict_convertDict kvs⟩
end

/-- C6: on a document whose values are already plain (no ObjectId, no
timestamp, recursively through nested lists and mappings), serialize_doc is
the identity; consequently applying serialize_doc twice to any document
equals applying it once. -/
theorem serialize_doc_idempotent (d : Doc) :
    (plainDict d = true → serialize_doc d = d) ∧
    serialize_doc (serialize_doc d) = serialize_doc d :=
  ⟨fun h => convertDict_of_plainDict d h,
   convertDict_of_plainDict (convertDict d) (plainDict_convertDict d)⟩

/-- Witness for C6 at a concrete nested document. -/
theorem serialize_doc_idempotent_witness :
    plainDict [("a", Value.vStr "x"),
      ("b", Value.vList [Value.vInt 3, Value.vNull]),
      ("c", Value.vDict [("d", Value.vStr "y")])] = true ∧
    serialize_doc [("a", Value.vStr "x"),
      ("b", Value.vList [Value.vInt 3, Value.vNull]),
      ("c", Value.vDict [("d", Value.vStr "y")])] =
      [("a", Value.vStr "x"),
       ("b", Value.vList [Value.vInt 3, Value.vNull]),
       ("c", Value.vDict [("d", Value.vStr "y")])] ∧
    serialize_doc (serialize_doc [("t", Value.vObjectId "abc"), ("u", Value.vDatetime "T1")]) =
      serialize_doc [("t", Value.vObjectId "abc"), ("u", Value.vDatetime "T1")] :=
  ⟨rfl,
   (serialize_doc_idempotent [("a", Value.vStr "x"),
      ("b", Value.vList [Value.vInt 3, Value.vNull]),
      ("c", Value.vDict [("d", Value.vStr "y")])]).1 rfl,
   (serialize_doc_idempotent [("t", Value.vObjectId "abc"), ("u", Value.vDatetime "T1")]).2⟩

/-- C8: the advice generator is a pure function of the user text and the
industry, stage and goal fields of the metadata: two calls agreeing on
those produce equal text, whatever the remaining fields (business_name,
notes) are; being a function of its arguments, it mutates no state. -/
theorem generate_advice_deterministic (t : String) (m1 m2 : ConsultationCreate)
    (hi : m1.industry = m2.industry) (hs : m1.stage = m2.stage)
    (hg : m1.goal = m2.goal) :
    generate_advice t m1 = generate_advice t m2 := by
  simp only [generate_advice, hi, hs, hg]

/-- Witness for C8: equal industry, stage and goal but different
business_name and notes still give equal advice. -/
theorem generate_advice_deterministic_witness :
    generate_advice "hello" ⟨"Acme", "retail", "mvp", "grow", none⟩ =
      generate_advice "hello" ⟨"Other", "retail", "mvp", "grow", some "ctx"⟩ :=
  generate_advice_deterministic "hello"
    ⟨"Acme", "retail", "mvp", "grow", none⟩
    ⟨"Other", "retail", "mvp", "grow", some "ctx"⟩ rfl rfl rfl

/-- C2 as stated is false: the stage string "MVP" is not an element of
the set of the four table keys, yet the advice generated for it uses the
mvp topic list, not the idea topic list, because the code lowercases the
stage before the table lookup. -/
theorem c2_counterexample :
    ("MVP" ∉ ["idea", "mvp", "growth", "scale"]) ∧
    generate_advice "hello" ⟨"b", "tech", "MVP", "g", none⟩ =
      adviceText "hello" (pyTitle "tech") "mvp" "g"
        ["MVP scope", "Success metrics", "Go-to-market", "Pricing hypothesis"] ∧
    (["MVP scope", "Success metrics", "Go-to-market", "Pricing hypothesis"] ≠
      ["Problem validation", "Customer discovery", "Value proposition", "Competitive scan"]) :=
  ⟨by decide, rfl, by decide⟩

/-- C2 amended: for every stage string whose lowercase form is not one of
idea, mvp, growth, scale, the advice generator selects the idea topic list
(Problem validation, Customer discovery, Value proposition, Competitive
scan) as the focus list of the produced text. -/
theorem generate_advice_unknown_stage (s t : String) (m : ConsultationCreate)
    (hs : m.stage = s)
    (h : pyLower s ∉ ["idea", "mvp", "growth", "scale"]) :
    selectFocus (pyLower s) =
      ["Problem validation", "Customer discovery", "Value proposition", "Competitive scan"] ∧
    generate_advice t m =
      adviceText t (pyTitle m.industry) (pyLower s) m.goal
        ["Problem validation", "Customer discovery", "Value proposition", "Competitive scan"] := by
  have h1 : (pyLower s == "idea") = false := by
    simp only [beq_eq_false_iff_ne, ne_eq]
    intro hc; exact h (by simp [hc])
  have h2 : (pyLower s == "mvp") = false := by
    simp only [beq_eq_false_iff_ne, ne_eq]
    intro hc; exact h (by simp [hc])
  have h3 : (pyLower s == "growth") = false := by
    simp only [beq_eq_false_iff_ne, ne_eq]
    intro hc; exact h (by simp [hc])
  have h4 : (pyLower s == "scale") = false := by
    simp only [beq_eq_false_iff_ne, ne_eq]
    intro hc; exact h (by simp [hc])
  have hl : stage_focus.lookup (pyLower s) = none := by
    simp [stage_focus, List.lookup, h1, h2, h3, h4]
  refine ⟨?_, ?_⟩
  · simp only [selectFocus]
    rw [hl]
    decide
  · simp only [generate_advice, hs, selectFocus]
    rw [hl]
    exact congrArg (adviceText t (pyTitle m.industry) (pyLower s) m.goal) (by decide)

/-- Witness for the amended C2 at the concrete unknown stage "seed". -/
theorem generate_advice_unknown_stage_witness :
    pyLower "seed" ∉ ["idea", "mvp", "growth", "scale"] ∧
    selectFocus (pyLower "seed") =
      ["Problem validation", "Customer discovery", "Value proposition", "Competitive scan"] ∧
    generate_advice "hi" ⟨"b", "tech", "seed", "g", none⟩ =
      adviceText "hi" (pyTitle "tech") (pyLower "seed") "g"
        ["Problem validation", "Customer discovery", "Value proposition", "Competitive scan"] :=
  ⟨by decide,
   (generate_advice_unknown_stage "seed" "hi" ⟨"b", "tech", "seed", "g", none⟩ rfl
      (by decide)).1,
   (generate_advice_unknown_stage "seed" "hi" ⟨"b", "tech", "seed", "g", none⟩ rfl
      (by decide)).2⟩

/-- C9: the stage lookup of the advice generator is case-insensitive：when
the lowercase form of the stage is a key of the stage_focus table, that
entry is the focus list of the produced text, and the idea fallback is
used exactly when the lowercase form is not a key. -/
theorem generate_advice_stage_lookup (s t : String) (m : ConsultationCreate)
    (hs : m.stage = s) :
    (∀ l, stage_focus.lookup (pyLower s) = some l →
      generate_advice t m = adviceText t (pyTitle m.industry) (pyLower s) m.goal l) ∧
    (stage_focus.lookup (pyLower s) = none →
      generate_advice t m =
        adviceText t (pyTitle m.industry) (pyLower s) m.goal
          ["Problem validation", "Customer discovery", "Value proposition", "Competitive scan"]) := by
  constructor
  · intro l hl
    simp [generate_advice, hs, selectFocus, hl]
  · intro hl
    simp only [generate_advice, hs, selectFocus]
    rw [hl]
    exact congrArg (adviceText t (pyTitle m.industry) (pyLower s) m.goal) (by decide)

/-- Witness for C9: the stage "MVP" selects the mvp topic list and the
stage "Growth" selects the growth topic list. -/
theorem generate_advice_stage_lookup_witness :
    stage_focus.lookup (pyLower "MVP") =
      some ["MVP scope", "Success metrics", "Go-to-market", "Pricing hypothesis"] ∧
    generate_advice "q" ⟨"b", "i", "MVP", "g", none⟩ =
      adviceText "q" (pyTitle "i") (pyLower "MVP") "g"
        ["MVP scope", "Success metrics", "Go-to-market", "Pricing hypothesis"] ∧
    generate_advice "q" ⟨"b", "i", "Growth", "g", none⟩ =
      adviceText "q" (pyTitle "i") (pyLower "Growth") "g"
        ["Acquisition channels", "Retention levers", "Unit economics", "Sales pipeline"] :=
  ⟨by decide,
   (generate_advice_stage_lookup "MVP" "q" ⟨"b", "i", "MVP", "g", none⟩ rfl).1
     ["MVP scope", "Success metrics", "Go-to-market", "Pricing hypothesis"] (by decide),
   (generate_advice_stage_lookup "Growth" "q" ⟨"b", "i", "Growth", "g", none⟩ rfl).1
     ["Acquisition channels", "Retention levers", "Unit economics", "Sales pipeline"] (by decide)⟩

/-- Searching an extended collection: when the first part has no match, the
search continues in the second part. -/
theorem find_one_append (l1 l2 : List Doc) (oid : String) :
    find_one (l1 ++ l2) oid = (find_one l1 oid).or (find_one l2 oid) := by
  simp [find_one, List.find?_append]

/-- C1 as stated is false for list-messages: the consultation id below is
well formed (24 hexadecimal characters) and unknown (the store is empty),
yet list_messages succeeds with an empty list instead of failing with 404. -/
theorem notfound_404_counterexample :
    isValidOid "0123456789abcdef01234567" = true ∧
    find_one ([] : List Doc) "0123456789abcdef01234567" = none ∧
    list_messages ⟨[], []⟩ "0123456789abcdef01234567" = .ok [] :=
  ⟨by decide, rfl, rfl⟩

/-- Key lookup commutes with document serialization: serialization keeps
every key and converts its value. -/
theorem lookup_convertDict (k : String) :
    ∀ d : Doc, List.lookup k (convertDict d) = (List.lookup k d).map convert
  | [] => rfl
  | (k2, v) :: rest => by
      simp only [convertDict, List.lookup]
      cases h : k == k2 <;> simp [h, lookup_convertDict k rest]

/-- Popping a key succeeds exactly when the key is present. -/
theorem popKey_isSome (k : String) :
    ∀ d : Doc, (popKey k d).isSome = (List.lookup k d).isSome
  | [] => rfl
  | (k2, v) :: rest => by
      simp only [popKey, List.lookup]
      by_cases h : k2 = k
      · subst h
        simp
      · have hb : (k == k2) = false := by
          simp [beq_eq_false_iff_ne]
          exact fun hc => h hc.symm
        simp [h, hb, popKey_isSome k rest]

/-- Serializing then renaming succeeds on every document that carries an
_id field. -/
theorem renameIdKey_isSome_of (d : Doc) (h : (List.lookup "_id" d).isSome = true) :
    (renameIdKey (serialize_doc d)).isSome = true := by
  simp only [renameIdKey, serialize_doc, Option.isSome_map']
  rw [popKey_isSome, lookup_convertDict]
  simpa using h

/-- Mapping a fallible function over a list succeeds when it succeeds on
every element. -/
theorem mapM_isSome {α β : Type} (f : α → Option β) :
    ∀ l : List α, (∀ a ∈ l, (f a).isSome = true) → ∃ out, l.mapM f = some out
  | [] => fun _ => ⟨[], rfl⟩
  | a :: as => fun h => by
      obtain ⟨b, hb⟩ := Option.isSome_iff_exists.mp (h a (List.mem_cons_self a as))
      obtain ⟨out, hout⟩ := mapM_isSome f as fun x hx => h x (List.mem_cons_of_mem a hx)
      refine ⟨b :: out, ?_⟩
      rw [List.mapM_cons, hb, hout]
      rfl

/-- For every consultation id that parses, over a store whose message
documents all carry an _id field, list_messages succeeds and returns the
serialized messages filtered by that id; no existence check is involved. -/
theorem list_messages_ok (st : Store) (cid oid : String)
    (hp : parseOid cid = some oid)
    (hwf : ∀ d ∈ st.message, (List.lookup "_id" d).isSome = true) :
    ∃ out, (get_documents st.message [("consultation_id", Value.vStr cid)] 200).mapM
        (fun it => renameIdKey (serialize_doc it)) = some out ∧
      list_messages st cid = .ok out := by
  obtain ⟨out, hout⟩ := mapM_isSome (fun it => renameIdKey (serialize_doc it))
    (get_documents st.message [("consultation_id", Value.vStr cid)] 200)
    (fun d hd => renameIdKey_isSome_of d
      (hwf d ((List.filter_sublist st.message).subset
        ((List.take_sublist 200 _).subset hd))))
  refine ⟨out, hout, ?_⟩
  simp only [list_messages, hp, hout]

/-- C1 amended: for a malformed consultation id, get-consultation,
list-messages and send-message all fail with a 404 error. For a
well-formed but unknown consultation id, get-consultation and
send-message fail with a 404 error and leave the store unchanged, while
list-messages does not: whenever every stored message document carries an
_id field (as every document written by the store adapter does), it
succeeds, returning the serialized list of messages filtered by that id,
possibly empty. -/
theorem notfound_404 (st : Store) (cid content oid1 now1 oid2 now2 : String)
    (h : parseOid cid = none ∨
      ∃ oid, parseOid cid = some oid ∧ find_one st.consultation oid = none) :
    (∃ d, get_consultation st cid = .error ⟨404, d⟩) ∧
    (∃ d, (send_message st cid content oid1 now1 oid2 now2).2 = .error ⟨404, d⟩) ∧
    (send_message st cid content oid1 now1 oid2 now2).1 = st ∧
    (parseOid cid = none → list_messages st cid = .error ⟨404, "Invalid consultation id"⟩) ∧
    (∀ oid, parseOid cid = some oid →
      (∀ d ∈ st.message, (List.lookup "_id" d).isSome = true) →
      ∃ out, (get_documents st.message [("consultation_id", Value.vStr cid)] 200).mapM
          (fun it => renameIdKey (serialize_doc it)) = some out ∧
        list_messages st cid = .ok out) := by
  have hlist : ∀ oid, parseOid cid = some oid →
      (∀ d ∈ st.message, (List.lookup "_id" d).isSome = true) →
      ∃ out, (get_documents st.message [("consultation_id", Value.vStr cid)] 200).mapM
          (fun it => renameIdKey (serialize_doc it)) = some out ∧
        list_messages st cid = .ok out :=
    fun oid hp hwf => list_messages_ok st cid oid hp hwf
  rcases h with h | ⟨oid, hp, hf⟩
  · exact ⟨⟨"Invalid consultation id", by simp [get_consultation, h]⟩,
      ⟨"Invalid consultation id", by simp [send_message, h]⟩,
      by simp [send_message, h],
      fun _ => by simp [list_messages, h], hlist⟩
  · refine ⟨⟨"Consultation not found", by simp [get_consultation, hp, hf]⟩,
      ⟨"Consultation not found", by simp [send_message, hp, hf]⟩,
      by simp [send_message, hp, hf], fun hn => ?_, hlist⟩
    rw [hn] at hp
    cases hp

/-- Witness for the amended C1: a malformed id over an empty store, a
well-formed unknown id over an empty store, and list-messages succeeding
at a well-formed unknown id over a store holding one message. -/
theorem notfound_404_witness :
    (∃ d, get_consultation ⟨[], []⟩ "bad-id" = .error ⟨404, d⟩) ∧
    (∃ d, (send_message ⟨[], []⟩ "bad-id" "hi" "a" "t1" "b" "t2").2 = .error ⟨404, d⟩) ∧
    (∃ d, get_consultation ⟨[], []⟩ "0123456789abcdef01234567" = .error ⟨404, d⟩) ∧
    (∃ out,
      (get_documents
          [[("consultation_id", Value.vStr "0123456789abcdef01234567"),
           ("role", Value.vStr "user"), ("content", Value.vStr "hi"),
           ("created_at", Value.vDatetime "T1"), ("updated_at", Value.vDatetime "T1"),
           ("_id", Value.vObjectId "bbbbbbbbbbbbbbbbbbbbbbbb")]]
          [("consultation_id", Value.vStr "0123456789abcdef01234567")] 200).mapM
        (fun it => renameIdKey (serialize_doc it)) = some out ∧
      list_messages
        ⟨[], [[("consultation_id", Value.vStr "0123456789abcdef01234567"),
           ("role", Value.vStr "user"), ("content", Value.vStr "hi"),
           ("created_at", Value.vDatetime "T1"), ("updated_at", Value.vDatetime "T1"),
           ("_id", Value.vObjectId "bbbbbbbbbbbbbbbbbbbbbbbb")]]⟩
        "0123456789abcdef01234567" = .ok out) :=
  ⟨(notfound_404 ⟨[], []⟩ "bad-id" "hi" "a" "t1" "b" "t2" (Or.inl (by decide))).1,
   (notfound_404 ⟨[], []⟩ "bad-id" "hi" "a" "t1" "b" "t2" (Or.inl (by decide))).2.1,
   (notfound_404 ⟨[], []⟩ "0123456789abcdef01234567" "hi" "a" "t1" "b" "t2"
     (Or.inr ⟨"0123456789abcdef01234567", by decide, rfl⟩)).1,
   (notfound_404
       ⟨[], [[("consultation_id", Value.vStr "0123456789abcdef01234567"),
           ("role", Value.vStr "user"), ("content", Value.vStr "hi"),
           ("created_at", Value.vDatetime "T1"), ("updated_at", Value.vDatetime "T1"),
           ("_id", Value.vObjectId "bbbbbbbbbbbbbbbbbbbbbbbb")]]⟩
       "0123456789abcdef01234567" "hi" "a" "t1" "b" "t2"
       (Or.inr ⟨"0123456789abcdef01234567", by decide, rfl⟩)).2.2.2.2
     "0123456789abcdef01234567" (by decide) (by decide)⟩

/-- The user message document as stored by a successful send_message call:
the handler fields (src/main.py lines 250-254) followed by the fields the
store adapter adds. -/
def userMsgDoc (cid content oid1 now1 : String) : Doc :=
  [("consultation_id", .vStr cid),
   ("role", .vStr "user"),
   ("content", .vStr content),
   ("created_at", .vDatetime now1),
   ("updated_at", .vDatetime now1),
   ("_id", .vObjectId oid1)]

/-- The assistant message document as stored by a successful send_message
call: the handler fields (src/main.py lines 267-271) followed by the fields
the store adapter adds. -/
def assistantMsgDoc (cid content : String) (meta : ConsultationCreate)
    (oid2 now2 : String) : Doc :=
  [("consultation_id", .vStr cid),
   ("role", .vStr "assistant"),
   ("content", .vStr (generate_advice content meta)),
   ("created_at", .vDatetime now2),
   ("updated_at", .vDatetime now2),
   ("_id", .vObjectId oid2)]

/-- The serialized assistant message returned by a successful send_message
call: the stored document with values converted to text and _id renamed to
id. -/
def assistantOut (cid content : String) (meta : ConsultationCreate)
    (oid2 now2 : String) : Doc :=
  [("consultation_id", .vStr cid),
   ("role", .vStr "assistant"),
   ("content", .vStr (generate_advice content meta)),
   ("created_at", .vStr now2),
   ("updated_at", .vStr now2),
   ("id", .vStr oid2)]

/-- Full description of a successful send_message call: the consultation
collection is untouched, the message collection is extended with the user
document then the assistant document, and the serialized assistant document
is returned. -/
theorem send_message_ok (st : Store) (cid content oid1 now1 oid2 now2 oid : String)
    (cons : Doc) (meta : ConsultationCreate)
    (hp : parseOid cid = some oid)
    (hf : find_one st.consultation oid = some cons)
    (hm : meta_of cons = some meta)
    (hv2 : parseOid oid2 = some oid2)
    (hfresh : find_one st.message oid2 = none)
    (hneq : oid1 ≠ oid2) :
    send_message st cid content oid1 now1 oid2 now2 =
      ({ consultation := st.consultation,
         message := st.message ++
           [userMsgDoc cid content oid1 now1,
            assistantMsgDoc cid content meta oid2 now2] },
       .ok (assistantOut cid content meta oid2 now2)) := by
  have hu : matchesId oid2 (userMsgDoc cid content oid1 now1) = false := by
    simp [matchesId, userMsgDoc, List.lookup, hneq]
  have ha : matchesId oid2 (assistantMsgDoc cid content meta oid2 now2) = true := by
    simp [matchesId, assistantMsgDoc, List.lookup]
  have h1 : find_one [userMsgDoc cid content oid1 now1] oid2 = none := by
    simp only [find_one, List.find?, hu]
  have h2 : find_one [assistantMsgDoc cid content meta oid2 now2] oid2 =
      some (assistantMsgDoc cid content meta oid2 now2) := by
    simp only [find_one, List.find?, ha]
  have hfind :
      find_one (st.message ++ [userMsgDoc cid content oid1 now1,
          assistantMsgDoc cid content meta oid2 now2]) oid2 =
        some (assistantMsgDoc cid content meta oid2 now2) := by
    rw [find_one_append, hfresh]
    simp only [find_one, List.find?, hu, ha, Option.none_or]
  have hser :
      renameIdKey (serialize_doc (assistantMsgDoc cid content meta oid2 now2)) =
        some (assistantOut cid content meta oid2 now2) := by
    simp [renameIdKey, serialize_doc, convertDict, convert, popKey,
      assistantMsgDoc, assistantOut]
  have hfold1 :
      ([("consultation_id", Value.vStr cid), ("role", Value.vStr "user"),
          ("content", Value.vStr content)] ++
        [("created_at", Value.vDatetime now1), ("updated_at", Value.vDatetime now1),
          ("_id", Value.vObjectId oid1)] : Doc) = userMsgDoc cid content oid1 now1 := rfl
  have hfold2 :
      ([("consultation_id", Value.vStr cid), ("role", Value.vStr "assistant"),
          ("content", Value.vStr (generate_advice content meta))] ++
        [("created_at", Value.vDatetime now2), ("updated_at", Value.vDatetime now2),
          ("_id", Value.vObjectId oid2)] : Doc) =
        assistantMsgDoc cid content meta oid2 now2 := rfl
  simp only [send_message, hp, hf, hm, create_document, hv2]
  rw [hfold1, hfold2]
  simp only [List.append_assoc, List.cons_append, List.nil_append]
  simp only [hfind, hser]

/-- C3: a successful send-message call (valid and existing consultation id,
well-formed stored consultation, fresh generated id) stores exactly two new
message documents in order: first a document with role user holding the
request content, then a document with role assistant holding the generated
advice; nothing else changes and only the serialized assistant document is
returned to the caller. -/
theorem send_message_two_inserts (st : Store)
    (cid content oid1 now1 oid2 now2 oid : String)
    (cons : Doc) (meta : ConsultationCreate)
    (hp : parseOid cid = some oid)
    (hf : find_one st.consultation oid = some cons)
    (hm : meta_of cons = some meta)
    (hv2 : parseOid oid2 = some oid2)
    (hfresh : find_one st.message oid2 = none)
    (hneq : oid1 ≠ oid2) :
    (send_message st cid content oid1 now1 oid2 now2).1.message =
      st.message ++ [userMsgDoc cid content oid1 now1,
        assistantMsgDoc cid content meta oid2 now2] ∧
    (send_message st cid content oid1 now1 oid2 now2).1.consultation = st.consultation ∧
    List.lookup "role" (userMsgDoc cid content oid1 now1) = some (.vStr "user") ∧
    List.lookup "content" (userMsgDoc cid content oid1 now1) = some (.vStr content) ∧
    List.lookup "role" (assistantMsgDoc cid content meta oid2 now2) =
      some (.vStr "assistant") ∧
    List.lookup "content" (assistantMsgDoc cid content meta oid2 now2) =
      some (.vStr (generate_advice content meta)) ∧
    (send_message st cid content oid1 now1 oid2 now2).2 =
      .ok (assistantOut cid content meta oid2 now2) ∧
    renameIdKey (serialize_doc (assistantMsgDoc cid content meta oid2 now2)) =
      some (assistantOut cid content meta oid2 now2) := by
  rw [send_message_ok st cid content oid1 now1 oid2 now2 oid cons meta hp hf hm hv2 hfresh hneq]
  refine ⟨rfl, rfl, ?_, ?_, ?_, ?_, rfl, ?_⟩
  · simp [userMsgDoc, List.lookup]
  · simp [userMsgDoc, List.lookup]
  · simp [assistantMsgDoc, List.lookup]
  · simp [assistantMsgDoc, List.lookup]
  · simp [renameIdKey, serialize_doc, convertDict, convert, popKey,
      assistantMsgDoc, assistantOut]

/-- Witness for C3, over a store holding one consultation and no message. -/
theorem send_message_two_inserts_witness :
    (send_message
        ⟨[[("business_name", Value.vStr "Acme"), ("industry", Value.vStr "retail"),
           ("stage", Value.vStr "idea"), ("goal", Value.vStr "grow"),
           ("notes", Value.vNull), ("created_at", Value.vDatetime "T0"),
           ("updated_at", Value.vDatetime "T0"),
           ("_id", Value.vObjectId "0123456789abcdef01234567")]], []⟩
        "0123456789abcdef01234567" "hi" "bbbbbbbbbbbbbbbbbbbbbbbb" "T1"
        "aaaaaaaaaaaaaaaaaaaaaaaa" "T2").1.message =
      [userMsgDoc "0123456789abcdef01234567" "hi" "bbbbbbbbbbbbbbbbbbbbbbbb" "T1",
       assistantMsgDoc "0123456789abcdef01234567" "hi"
         ⟨"Acme", "retail", "idea", "grow", none⟩ "aaaaaaaaaaaaaaaaaaaaaaaa" "T2"] ∧
    (send_message
        ⟨[[("business_name", Value.vStr "Acme"), ("industry", Value.vStr "retail"),
           ("stage", Value.vStr "idea"), ("goal", Value.vStr "grow"),
           ("notes", Value.vNull), ("created_at", Value.vDatetime "T0"),
           ("updated_at", Value.vDatetime "T0"),
           ("_id", Value.vObjectId "0123456789abcdef01234567")]], []⟩
        "0123456789abcdef01234567" "hi" "bbbbbbbbbbbbbbbbbbbbbbbb" "T1"
        "aaaaaaaaaaaaaaaaaaaaaaaa" "T2").2 =
      .ok (assistantOut "0123456789abcdef01234567" "hi"
        ⟨"Acme", "retail", "idea", "grow", none⟩ "aaaaaaaaaaaaaaaaaaaaaaaa" "T2") := by
  have h := send_message_two_inserts
    ⟨[[("business_name", Value.vStr "Acme"), ("industry", Value.vStr "retail"),
       ("stage", Value.vStr "idea"), ("goal", Value.vStr "grow"),
       ("notes", Value.vNull), ("created_at", Value.vDatetime "T0"),
       ("updated_at", Value.vDatetime "T0"),
       ("_id", Value.vObjectId "0123456789abcdef01234567")]], []⟩
    "0123456789abcdef01234567" "hi" "bbbbbbbbbbbbbbbbbbbbbbbb" "T1"
    "aaaaaaaaaaaaaaaaaaaaaaaa" "T2" "0123456789abcdef01234567"
    [("business_name", Value.vStr "Acme"), ("industry", Value.vStr "retail"),
     ("stage", Value.vStr "idea"), ("goal", Value.vStr "grow"),
     ("notes", Value.vNull), ("created_at", Value.vDatetime "T0"),
     ("updated_at", Value.vDatetime "T0"),
     ("_id", Value.vObjectId "0123456789abcdef01234567")]
    ⟨"Acme", "retail", "idea", "grow", none⟩
    (by decide) rfl rfl (by decide) rfl (by decide)
  exact ⟨h.1.trans (by simp), h.2.2.2.2.2.2.1⟩

/-- The consultation document as stored by create_consultation: the dumped
payload followed by the fields the store adapter adds. -/
def consDoc (p : ConsultationCreate) (newOid now : String) : Doc :=
  p.model_dump ++ [("created_at", .vDatetime now), ("updated_at", .vDatetime now),
    ("_id", .vObjectId newOid)]

/-- The serialized consultation returned by create_consultation and by a
subsequent get_consultation: the stored document with values converted to
text and _id renamed to id. -/
def consOut (p : ConsultationCreate) (newOid now : String) : Doc :=
  [("business_name", .vStr p.business_name),
   ("industry", .vStr p.industry),
   ("stage", .vStr p.stage),
   ("goal", .vStr p.goal),
   ("notes", notesVal p.notes),
   ("created_at", .vStr now),
   ("updated_at", .vStr now),
   ("id", .vStr newOid)]

/-- The stored consultation document matches its own id. -/
theorem matchesId_consDoc (p : ConsultationCreate) (newOid now : String) :
    matchesId newOid (consDoc p newOid now) = true := by
  simp [matchesId, consDoc, ConsultationCreate.model_dump, List.lookup]

/-- After appending the new consultation document to a collection with no
document of that id, the lookup by id finds exactly the new document. -/
theorem find_one_consDoc (l : List Doc) (p : ConsultationCreate) (newOid now : String)
    (hfresh : find_one l newOid = none) :
    find_one (l ++ [consDoc p newOid now]) newOid = some (consDoc p newOid now) := by
  rw [find_one_append, hfresh]
  simp only [find_one, List.find?, matchesId_consDoc, Option.none_or]

/-- Serializing and renaming the stored consultation document yields the
serialized consultation. -/
theorem renameIdKey_consDoc (p : ConsultationCreate) (newOid now : String) :
    renameIdKey (serialize_doc (consDoc p newOid now)) = some (consOut p newOid now) := by
  cases hn : p.notes <;>
    simp [renameIdKey, serialize_doc, convertDict, convert, popKey, consDoc,
      consOut, ConsultationCreate.model_dump, notesVal, hn]

/-- Full description of a successful create_consultation call: the
consultation collection is extended with the stored document and the
serialized document is returned. -/
theorem create_consultation_ok (st : Store) (newOid now : String) (p : ConsultationCreate)
    (hv : parseOid newOid = some newOid)
    (hfresh : find_one st.consultation newOid = none) :
    create_consultation st newOid now p =
      ({ consultation := st.consultation ++ [consDoc p newOid now],
         message := st.message },
       .ok (consOut p newOid now)) := by
  have hfold : (p.model_dump ++ [("created_at", Value.vDatetime now),
      ("updated_at", Value.vDatetime now), ("_id", Value.vObjectId newOid)] : Doc) =
      consDoc p newOid now := rfl
  simp only [create_consultation, create_document, hv]
  rw [hfold]
  simp only [find_one_consDoc st.consultation p newOid now hfresh,
    renameIdKey_consDoc p newOid now]

/-- C5: a successful create-consultation call returns an object whose id
field is a non-empty string, and a subsequent get-consultation with that id
returns an object identical to the one the create call returned. -/
theorem create_get_roundtrip (st : Store) (newOid now : String) (p : ConsultationCreate)
    (hv : parseOid newOid = some newOid)
    (hfresh : find_one st.consultation newOid = none) :
    ∃ out, (create_consultation st newOid now p).2 = .ok out ∧
      List.lookup "id" out = some (.vStr newOid) ∧
      newOid ≠ "" ∧
      get_consultation (create_consultation st newOid now p).1 newOid = .ok out := by
  have hne : newOid ≠ "" := by
    intro he
    rw [he] at hv
    simp [parseOid, isValidOid] at hv
  have hok := create_consultation_ok st newOid now p hv hfresh
  refine ⟨consOut p newOid now, ?_, ?_, hne, ?_⟩
  · rw [hok]
  · simp [consOut, List.lookup]
  · rw [hok]
    simp only [get_consultation, hv,
      find_one_consDoc st.consultation p newOid now hfresh,
      renameIdKey_consDoc p newOid now]

/-- Witness for C5 over the empty store. -/
theorem create_get_roundtrip_witness :
    ∃ out,
      (create_consultation ⟨[], []⟩ "0123456789abcdef01234567" "T0"
        ⟨"Acme", "retail", "idea", "grow", none⟩).2 = .ok out ∧
      List.lookup "id" out = some (.vStr "0123456789abcdef01234567") ∧
      "0123456789abcdef01234567" ≠ "" ∧
      get_consultation
        (create_consultation ⟨[], []⟩ "0123456789abcdef01234567" "T0"
          ⟨"Acme", "retail", "idea", "grow", none⟩).1
        "0123456789abcdef01234567" = .ok out :=
  create_get_roundtrip ⟨[], []⟩ "0123456789abcdef01234567" "T0"
    ⟨"Acme", "retail", "idea", "grow", none⟩ (by decide) rfl

/-- C7: a creation payload that supplies business_name, industry and goal
but omits the stage field yields a consultation whose stage is the default
idea, and the returned object reflects stage idea. -/
theorem create_default_stage (st : Store) (newOid now bn ind g : String)
    (notes : Option String)
    (hv : parseOid newOid = some newOid)
    (hfresh : find_one st.consultation newOid = none) :
    (ConsultationCreate.ofPayload bn ind g none notes).stage = "idea" ∧
    ∃ out,
      (create_consultation st newOid now
        (ConsultationCreate.ofPayload bn ind g none notes)).2 = .ok out ∧
      List.lookup "stage" out = some (.vStr "idea") := by
  refine ⟨rfl,
    consOut (ConsultationCreate.ofPayload bn ind g none notes) newOid now, ?_, ?_⟩
  · rw [create_consultation_ok st newOid now _ hv hfresh]
  · simp [consOut, List.lookup, ConsultationCreate.ofPayload]

/-- Witness for C7 at the payload of the spec example. -/
theorem create_default_stage_witness :
    (ConsultationCreate.ofPayload "Acme" "retail" "grow sales" none none).stage = "idea" ∧
    ∃ out,
      (create_consultation ⟨[], []⟩ "0123456789abcdef01234567" "T0"
        (ConsultationCreate.ofPayload "Acme" "retail" "grow sales" none none)).2 =
        .ok out ∧
      List.lookup "stage" out = some (.vStr "idea") :=
  create_default_stage ⟨[], []⟩ "0123456789abcdef01234567" "T0" "Acme" "retail"
    "grow sales" none (by decide) rfl

/-- C4: a send-message request whose content is empty or longer than 4000
characters fails validation before the handler runs, leaving the store
unchanged, while content of 1 to 4000 characters passes validation. -/
theorem message_length_validation (st : Store) (cid content oid1 now1 oid2 now2 : String) :
    ((content.length = 0 ∨ 4000 < content.length) →
      (post_message_endpoint st cid content oid1 now1 oid2 now2).1 = st ∧
      (post_message_endpoint st cid content oid1 now1 oid2 now2).2 =
        .error ⟨422, "validation error"⟩) ∧
    (1 ≤ content.length → content.length ≤ 4000 →
      validMessageContent content = true) := by
  constructor
  · intro h
    have hv : validMessageContent content = false := by
      simp only [validMessageContent, Bool.and_eq_false_iff, decide_eq_false_iff_not]
      omega
    simp [post_message_endpoint, hv]
  · intro h1 h2
    simp only [validMessageContent, Bool.and_eq_true, decide_eq_true_eq]
    omega

/-- Witness for C4: empty content and content of length 4001 are rejected
without touching the store, content of length 2 passes validation. -/
theorem message_length_validation_witness :
    ((post_message_endpoint ⟨[], []⟩ "x" "" "a" "t1" "b" "t2").1 = ⟨[], []⟩ ∧
     (post_message_endpoint ⟨[], []⟩ "x" "" "a" "t1" "b" "t2").2 =
       .error ⟨422, "validation error"⟩) ∧
    (post_message_endpoint ⟨[], []⟩ "x" (String.mk (List.replicate 4001 'a'))
      "a" "t1" "b" "t2").1 = ⟨[], []⟩ ∧
    validMessageContent "ok" = true :=
  ⟨(message_length_validation ⟨[], []⟩ "x" "" "a" "t1" "b" "t2").1 (Or.inl rfl),
   ((message_length_validation ⟨[], []⟩ "x" (String.mk (List.replicate 4001 'a'))
      "a" "t1" "b" "t2").1
     (Or.inr (by rw [String.length_mk, List.length_replicate]; omega))).1,
   (message_length_validation ⟨[], []⟩ "x" "ok" "a" "t1" "b" "t2").2
     (by decide) (by decide)⟩

/-- C10: the metadata synthesized by send_message never fails on missing
consultation fields: a missing business_name, industry or goal defaults to
the empty string and a missing stage defaults to idea, and with all fields
missing the synthesis succeeds and send_message proceeds to a successful
advice generation. -/
theorem meta_missing_fields (cons : Doc) :
    (List.lookup "business_name" cons = none → List.lookup "industry" cons = none →
     List.lookup "goal" cons = none → List.lookup "stage" cons = none →
     List.lookup "notes" cons = none →
     meta_of cons = some ⟨"", "", "idea", "", none⟩) ∧
    (∀ m, meta_of cons = some m →
      (List.lookup "business_name" cons = none → m.business_name = "") ∧
      (List.lookup "industry" cons = none → m.industry = "") ∧
      (List.lookup "goal" cons = none → m.goal = "") ∧
      (List.lookup "stage" cons = none → m.stage = "idea")) ∧
    (∀ st : Store, ∀ cid oid content oid1 now1 oid2 now2 : String,
      List.lookup "business_name" cons = none → List.lookup "industry" cons = none →
      List.lookup "goal" cons = none → List.lookup "stage" cons = none →
      List.lookup "notes" cons = none →
      parseOid cid = some oid →
      find_one st.consultation oid = some cons →
      parseOid oid2 = some oid2 →
      find_one st.message oid2 = none →
      oid1 ≠ oid2 →
      (send_message st cid content oid1 now1 oid2 now2).2 =
        .ok (assistantOut cid content ⟨"", "", "idea", "", none⟩ oid2 now2)) := by
  have hall : List.lookup "business_name" cons = none →
      List.lookup "industry" cons = none →
      List.lookup "goal" cons = none → List.lookup "stage" cons = none →
      List.lookup "notes" cons = none →
      meta_of cons = some ⟨"", "", "idea", "", none⟩ := by
    intro h1 h2 h3 h4 h5
    simp [meta_of, getFieldD, h1, h2, h3, h4, h5, asStr, asOptStr]
  refine ⟨hall, ?_, ?_⟩
  · intro m hm
    refine ⟨?_, ?_, ?_, ?_⟩ <;> intro h
    · simp only [meta_of, getFieldD, h, Option.getD_none, asStr] at hm
      split at hm
      · rename_i bn ind stg g n heq1 heq2 heq3 heq4 heq5
        cases hm
        cases heq1
        rfl
      · cases hm
    · simp only [meta_of, getFieldD, h, Option.getD_none, asStr] at hm
      split at hm
      · rename_i bn ind stg g n heq1 heq2 heq3 heq4 heq5
        cases hm
        cases heq2
        rfl
      · cases hm
    · simp only [meta_of, getFieldD, h, Option.getD_none, asStr] at hm
      split at hm
      · rename_i bn ind stg g n heq1 heq2 heq3 heq4 heq5
        cases hm
        cases heq4
        rfl
      · cases hm
    · simp only [meta_of, getFieldD, h, Option.getD_none, asStr] at hm
      split at hm
      · rename_i bn ind stg g n heq1 heq2 heq3 heq4 heq5
        cases hm
        cases heq3
        rfl
      · cases hm
  · intro st cid oid content oid1 now1 oid2 now2 h1 h2 h3 h4 h5 hp hf hv2 hfresh hneq
    rw [send_message_ok st cid content oid1 now1 oid2 now2 oid cons
      ⟨"", "", "idea", "", none⟩ hp hf (hall h1 h2 h3 h4 h5) hv2 hfresh hneq]

/-- Witness for C10 at a consultation document holding only an _id. -/
theorem meta_missing_fields_witness :
    meta_of [("_id", Value.vObjectId "0123456789abcdef01234567")] =
      some ⟨"", "", "idea", "", none⟩ ∧
    (send_message ⟨[[("_id", Value.vObjectId "0123456789abcdef01234567")]], []⟩
        "0123456789abcdef01234567" "hi" "bbbbbbbbbbbbbbbbbbbbbbbb" "T1"
        "aaaaaaaaaaaaaaaaaaaaaaaa" "T2").2 =
      .ok (assistantOut "0123456789abcdef01234567" "hi" ⟨"", "", "idea", "", none⟩
        "aaaaaaaaaaaaaaaaaaaaaaaa" "T2") :=
  ⟨(meta_missing_fields [("_id", Value.vObjectId "0123456789abcdef01234567")]).1
      rfl rfl rfl rfl rfl,
   (meta_missing_fields [("_id", Value.vObjectId "0123456789abcdef01234567")]).2.2
      ⟨[[("_id", Value.vObjectId "0123456789abcdef01234567")]], []⟩
      "0123456789abcdef01234567" "0123456789abcdef01234567" "hi"
      "bbbbbbbbbbbbbbbbbbbbbbbb" "T1" "aaaaaaaaaaaaaaaaaaaaaaaa" "T2"
      rfl rfl rfl rfl rfl (by decide) rfl (by decide) rfl (by decide)⟩
